import Mathlib

/-!
Shallow embedding of src/ansible_modules/irods_build_plugin.py.

The module is a platform-dispatched build orchestrator: it selects a build
strategy from the detected (platform, distribution) pair, installs build
dependencies, clones and checks out a git repository, runs a packaging
script, and copies the build output.  External effects (package-manager
calls, commands run through module.run_command, directory creation, file
copies) are recorded as an explicit list of actions; fatal conditions
(module.fail_json, uncaught Python exceptions) are an error value.  Host
state that the module merely observes (the home directory, the platform
string from get_irods_platform_string, directory listings, the exit codes
of external commands) is passed in as an explicit environment.
-/

/-- Fatal outcomes of a run: a Python AttributeError (raised when an object
has no attribute of the given name), an IndexError (indexing an empty list),
module.fail_json with a message, an OSError naming the offending path
(os.makedirs on an existing directory, os.listdir on a missing one), or a
command run with check_rc=True returning a non-zero status. -/
inductive PyError
  | attributeError (attr : String)
  | indexError
  | failJson (msg : String)
  | osError (path : String)
  | commandFailed (cmd : String)
  deriving DecidableEq

/-- External effects performed by the module, in order: an OS-package
install by name (install_os_packages), an install from package files
(install_os_packages_from_files), module.run_command without and with
use_unsafe_shell, os.makedirs, and a single file copy performed inside
shutil.copytree.  run_command on an argv list is recorded as the
space-joined command line. -/
inductive Effect
  | installOsPackages (pkgs : List String)
  | installOsPackagesFromFiles (files : List String)
  | runCommand (cmd : String) (cwd : Option String)
  | runShellCommand (cmd : String) (cwd : Option String)
  | makedirs (path : String)
  | copyFile (src dst : String)
  deriving DecidableEq

/-- The module parameters (lines 126-138): all seven are declared
required in the argument_spec. -/
structure ModuleParams where
  output_root_directory : String
  irods_packages_root_directory : String
  plugin_name : String
  target_os_list : List String
  git_repository : String
  git_commitish : String
  debug_build : Bool
  deriving DecidableEq

/-- The structured result handed to module.exit_json on success
(lines 143-147). -/
structure BuildResult where
  changed : Bool
  complex_args : ModuleParams
  deriving DecidableEq

/-- Host state observed by the module: the invoking user's home directory
(consulted by os.path.expanduser), the platform string returned by
get_irods_platform_string (from the repository's local ansible-utils
extension, outside src/; treated as an opaque input), the listing
os.listdir returns for the per-platform packages directory, the exit code
run_command observes for a command line run in an optional working
directory, and the filesystem facts consulted by steps 3 and 4. -/
structure Env where
  homeDir : String
  ips : String
  packagesListing : List String
  rc : String → Option String → Int
  buildDirPreexists : Bool
  copySrcExists : Bool
  copySrcListing : List String
  outputDirExists : Bool

/-- Python's substring test (the binary operator needle in hay),
evaluated on the character lists of the two strings. -/
def pyIn (needle hay : String) : Bool :=
  go needle.data hay.data
where
  go (n : List Char) : List Char → Bool
    | [] => n.isEmpty
    | c :: t => n.isPrefixOf (c :: t) || go n t

/-- os.path.join for the shapes the module produces: an absolute second
component replaces the first, otherwise the components are joined with a
single separator. -/
def os_path_join (a b : String) : String :=
  if b.data.head? = some '/' then b
  else if a = "" then b
  else a ++ "/" ++ b

/-- The strategy classes of the module: the three concrete strategies
(lines 91-124) and the base Builder's UnimplementedStrategy (line 28). -/
inductive StrategyClass
  | RedHatStrategy
  | DebianStrategy
  | SuseStrategy
  | UnimplementedStrategy
  deriving DecidableEq

/-- The three concrete dispatch kinds. -/
inductive StrategyKind
  | redhat
  | debian
  | suse
  deriving DecidableEq

/-- CentOSBuilder (lines 111-114). -/
def CentOSBuilder.platform : String := "Linux"

/-- CentOSBuilder's distribution key. -/
def CentOSBuilder.distribution : Option String := some "Centos"

/-- UbuntuBuilder (lines 116-119). -/
def UbuntuBuilder.platform : String := "Linux"

/-- UbuntuBuilder's distribution key. -/
def UbuntuBuilder.distribution : Option String := some "Ubuntu"

/-- OpenSuseBuilder (lines 121-124).  The distribution key in the source is
the string "Opensuse " with a trailing space. -/
def OpenSuseBuilder.platform : String := "Linux"

/-- OpenSuseBuilder's distribution key, trailing space included. -/
def OpenSuseBuilder.distribution : Option String := some "Opensuse "

/-- Modelled from the spec: the strategy selector.  Builder.__new__
(lines 29-30) delegates to ansible's load_platform_subclass, which is not
part of src/; per the spec it is a deterministic table lookup resolving the
detected (platform, distribution) pair against the Builder subclasses by
exact, case-sensitive comparison with no fallback heuristics, selecting the
base Builder (whose strategy_class is UnimplementedStrategy, line 28) when
nothing matches.  The table rows are the subclass attributes of
lines 111-124. -/
def load_platform_subclass (platform : String) (distribution : Option String) :
    StrategyClass :=
  if platform = CentOSBuilder.platform ∧ distribution = CentOSBuilder.distribution then
    StrategyClass.RedHatStrategy
  else if platform = UbuntuBuilder.platform ∧ distribution = UbuntuBuilder.distribution then
    StrategyClass.DebianStrategy
  else if platform = OpenSuseBuilder.platform ∧ distribution = OpenSuseBuilder.distribution then
    StrategyClass.SuseStrategy
  else
    StrategyClass.UnimplementedStrategy

/-- The attribute names class UnimplementedStrategy defines (lines 9-23):
its constructor, build, and the error formatter spelled
"unimplemented_error" at line 16. -/
def UnimplementedStrategy.attrs : List String :=
  ["__init__", "build", "unimplemented_error"]

/-- The attribute name that __init__ (line 11) and build (line 14) invoke
on self; in the source it is spelled "unimplmented_error". -/
def UnimplementedStrategy.invokedAttr : String := "unimplmented_error"

/-- The message unimplemented_error (lines 16-23) passes to
module.fail_json, given the detected platform and distribution. -/
def UnimplementedStrategy.unimplemented_error_msg (platform : String)
    (distribution : Option String) : String :=
  match distribution with
  | some d =>
      "irods_build_plugin module cannot be used on platform " ++ platform
        ++ " (" ++ d ++ ")"
  | none => "irods_build_plugin module cannot be used on platform " ++ platform

/-- The body shared by UnimplementedStrategy.__init__ and build: the call
self.unimplmented_error().  Python first resolves the attribute name on the
instance; if the class does not define it, an AttributeError is raised and
nothing further runs.  If it resolved, the called method would invoke
module.fail_json with the formatted message.  Either way no external
process is started, so the action list is empty and the result is always an
error. -/
def UnimplementedStrategy.methodCall (platform : String)
    (distribution : Option String) : List Effect × PyError :=
  if UnimplementedStrategy.invokedAttr ∈ UnimplementedStrategy.attrs then
    ([], PyError.failJson
      (UnimplementedStrategy.unimplemented_error_msg platform distribution))
  else
    ([], PyError.attributeError UnimplementedStrategy.invokedAttr)

/-- UnimplementedStrategy.__init__ (lines 9-11). -/
def UnimplementedStrategy.init (platform : String) (distribution : Option String) :
    List Effect × PyError :=
  UnimplementedStrategy.methodCall platform distribution

/-- UnimplementedStrategy.build (lines 13-14). -/
def UnimplementedStrategy.build (platform : String) (distribution : Option String) :
    List Effect × PyError :=
  UnimplementedStrategy.methodCall platform distribution

/-- Line 47: local_plugin_dir = os.path.expanduser of "~/" followed by the
plugin name; expanduser substitutes the invoking user's home directory for
the leading tilde. -/
def GenericStrategy.local_plugin_dir (homeDir plugin_name : String) : String :=
  homeDir ++ "/" ++ plugin_name

/-- Lines 53-55: the per-platform packages directory. -/
def GenericStrategy.irods_packages_directory (params : ModuleParams) (ips : String) :
    String :=
  os_path_join params.irods_packages_root_directory ips

/-- Lines 57-59: the per-platform output directory. -/
def GenericStrategy.output_directory (params : ModuleParams) (ips : String) : String :=
  os_path_join params.output_root_directory ips

/-- Lines 61-67: pick the first listing entry containing "irods-dev-"
(Python 2 filter keeps listing order; indexing [0] on an empty filter
result raises IndexError) and install it from file, then do the same for
"irods-runtime-".  The dev package is installed before the runtime lookup
happens. -/
def install_dev_and_runtime_packages (pkgDir : String) (listing : List String) :
    List Effect × Option PyError :=
  match listing.filter (fun x => pyIn "irods-dev-" x) with
  | [] => ([], some PyError.indexError)
  | d :: _ =>
    match listing.filter (fun x => pyIn "irods-runtime-" x) with
    | [] =>
        ([Effect.installOsPackagesFromFiles [os_path_join pkgDir d]],
         some PyError.indexError)
    | r :: _ =>
        ([Effect.installOsPackagesFromFiles [os_path_join pkgDir d],
          Effect.installOsPackagesFromFiles [os_path_join pkgDir r]], none)

/-- RedHatStrategy.building_dependencies (line 94). -/
def RedHatStrategy.building_dependencies : List String :=
  ["git", "g++", "make", "help2man", "python-devel", "unixODBC", "fuse-devel",
   "curl-devel", "bzip2-devel", "zlib-devel", "pam-devel", "openssl-devel",
   "libxml2-devel", "krb5-devel", "unixODBC-devel", "perl-JSON",
   "globus-proxy-utils", "globus-gssapi-gsi-devel"]

/-- DebianStrategy.building_dependencies (line 104). -/
def DebianStrategy.building_dependencies : List String :=
  ["git", "g++", "make", "help2man", "python-dev", "unixodbc", "libfuse-dev",
   "libcurl4-gnutls-dev", "libbz2-dev", "zlib1g-dev", "libpam0g-dev",
   "libssl-dev", "libxml2-dev", "libkrb5-dev", "unixodbc-dev", "libjson-perl",
   "globus-gsi", "libglobus-gsi-callback-dev", "libglobus-gsi-proxy-core-dev",
   "libglobus-gssapi-gsi-dev", "libglobus-callout-dev",
   "libglobus-gss-assist-dev"]

/-- SuseStrategy.building_dependencies (line 109). -/
def SuseStrategy.building_dependencies : List String :=
  ["python-devel", "unixODBC", "fuse-devel", "libcurl-devel", "libbz2-devel",
   "libopenssl-devel", "libxml2-devel", "krb5-devel", "perl-JSON",
   "unixODBC-devel"]

/-- Lines 75-77: GenericStrategy.install_building_dependencies installs the
strategy's dependency list by name, then the dev and runtime package files.
install_os_packages is a helper from the repository's local ansible-utils
extension (outside src/); the claims only concern its invocation, recorded
as an action. -/
def GenericStrategy.install_building_dependencies (deps : List String)
    (pkgDir : String) (listing : List String) : List Effect × Option PyError :=
  let r := install_dev_and_runtime_packages pkgDir listing
  (Effect.installOsPackages deps :: r.1, r.2)

/-- The wget invocation of line 98, argv joined into one command line. -/
def wget_cmd : String :=
  "wget http://toolkit.globus.org/ftppub/gt6/installers/repo/globus-toolkit-repo_latest_all.deb"

/-- Lines 96-100: the DebianStrategy override downloads the Globus
repository-descriptor package (run_command with check_rc=True), installs it
from file, and only then runs the inherited generic step. -/
def DebianStrategy.install_building_dependencies (pkgDir : String)
    (listing : List String) (rc : String → Option String → Int) :
    List Effect × Option PyError :=
  if rc wget_cmd none = 0 then
    let r := GenericStrategy.install_building_dependencies
      DebianStrategy.building_dependencies pkgDir listing
    (Effect.runCommand wget_cmd none ::
       Effect.installOsPackagesFromFiles ["globus-toolkit-repo_latest_all.deb"] :: r.1,
     r.2)
  else
    ([Effect.runCommand wget_cmd none], some (PyError.commandFailed wget_cmd))

/-- Sub-step 1 as dispatched: RedHat and Suse inherit the generic method
with their own dependency list; Debian uses its override. -/
def strategy_install_building_dependencies (k : StrategyKind)
    (params : ModuleParams) (env : Env) : List Effect × Option PyError :=
  let pkgDir := GenericStrategy.irods_packages_directory params env.ips
  match k with
  | StrategyKind.redhat =>
      GenericStrategy.install_building_dependencies
        RedHatStrategy.building_dependencies pkgDir env.packagesListing
  | StrategyKind.debian =>
      DebianStrategy.install_building_dependencies pkgDir env.packagesListing env.rc
  | StrategyKind.suse =>
      GenericStrategy.install_building_dependencies
        SuseStrategy.building_dependencies pkgDir env.packagesListing

/-- The clone command line of line 80. -/
def git_clone_cmd (repo dir : String) : String :=
  "git clone --recursive " ++ repo ++ " " ++ dir

/-- The checkout command line of line 81. -/
def git_checkout_cmd (commitish : String) : String :=
  "git checkout " ++ commitish

/-- Lines 79-81: clone recursively into local_plugin_dir, then checkout in
that directory, both with check_rc=True; a non-zero exit status fails the
run (module.fail_json) and nothing later executes. -/
def GenericStrategy.prepare_git_repository (params : ModuleParams) (env : Env) :
    List Effect × Option PyError :=
  let dir := GenericStrategy.local_plugin_dir env.homeDir params.plugin_name
  let clone := git_clone_cmd params.git_repository dir
  let co := git_checkout_cmd params.git_commitish
  if env.rc clone none = 0 then
    if env.rc co (some dir) = 0 then
      ([Effect.runCommand clone none, Effect.runCommand co (some dir)], none)
    else
      ([Effect.runCommand clone none, Effect.runCommand co (some dir)],
       some (PyError.commandFailed co))
  else
    ([Effect.runCommand clone none], some (PyError.commandFailed clone))

/-- The shell command of line 86, with the platform string substituted for
the format placeholder. -/
def build_script_cmd (ips : String) : String :=
  "sudo ./packaging/build.sh -r > \"/projects/irods/terrell/build-" ++ ips
    ++ ".log\" 2>&1"

/-- The redirect target inside the line 86 command. -/
def build_log_path (ips : String) : String :=
  "/projects/irods/terrell/build-" ++ ips ++ ".log"

/-- Lines 83-86: os.makedirs of the build subdirectory (OSError if it
already exists), then the packaging script through an unsafe shell with
check_rc=True. -/
def GenericStrategy.build_plugin_package (params : ModuleParams) (env : Env) :
    List Effect × Option PyError :=
  let dir := GenericStrategy.local_plugin_dir env.homeDir params.plugin_name
  let buildDir := os_path_join dir "build"
  if env.buildDirPreexists = true then ([], some (PyError.osError buildDir))
  else if env.rc (build_script_cmd env.ips) (some dir) = 0 then
    ([Effect.makedirs buildDir,
      Effect.runShellCommand (build_script_cmd env.ips) (some dir)], none)
  else
    ([Effect.makedirs buildDir,
      Effect.runShellCommand (build_script_cmd env.ips) (some dir)],
     some (PyError.commandFailed (build_script_cmd env.ips)))

/-- shutil.copytree as invoked at line 89 (Python 2.7 semantics): it lists
the source (OSError if the source is missing), creates the destination
with os.makedirs (OSError if the destination already exists), and only
then copies the entries; on either error nothing has been copied.  An
existing empty source copies nothing and succeeds. -/
def copytree (src dst : String) (srcExists : Bool) (srcListing : List String)
    (dstExists : Bool) : List Effect × Option PyError :=
  if srcExists = false then ([], some (PyError.osError src))
  else if dstExists = true then ([], some (PyError.osError dst))
  else
    (Effect.makedirs dst ::
       srcListing.map (fun n => Effect.copyFile (os_path_join src n) (os_path_join dst n)),
     none)

/-- Lines 88-89: copy the build subdirectory of the clone into the
per-platform output directory. -/
def GenericStrategy.copy_build_output (params : ModuleParams) (env : Env) :
    List Effect × Option PyError :=
  copytree
    (os_path_join (GenericStrategy.local_plugin_dir env.homeDir params.plugin_name) "build")
    (GenericStrategy.output_directory params env.ips)
    env.copySrcExists env.copySrcListing env.outputDirExists

/-- Sequencing of two stages (lines 69-73): a failed stage terminates the
run (module.fail_json exits the process and uncaught exceptions propagate),
so the second stage contributes nothing after a failure. -/
def seqE (a : List Effect × Option PyError) (b : Unit → List Effect × Option PyError) :
    List Effect × Option PyError :=
  match a with
  | (as, some e) => (as, some e)
  | (as, none) => (as ++ (b ()).1, (b ()).2)

/-- GenericStrategy.build (lines 69-73): the four sub-steps in program
order.  All three concrete strategies inherit this method unchanged;
Debian only overrides sub-step 1. -/
def GenericStrategy.build (k : StrategyKind) (params : ModuleParams) (env : Env) :
    List Effect × Option PyError :=
  seqE (strategy_install_building_dependencies k params env) (fun _ =>
    seqE (GenericStrategy.prepare_git_repository params env) (fun _ =>
      seqE (GenericStrategy.build_plugin_package params env) (fun _ =>
        GenericStrategy.copy_build_output params env)))

/-- The four sub-step names of lines 70-73. -/
inductive StepName
  | installDeps
  | fetchSource
  | buildScript
  | collectOutput
  deriving DecidableEq

/-- The program order of the sub-steps in lines 70-73. -/
def buildOrder : List StepName :=
  [StepName.installDeps, StepName.fetchSource, StepName.buildScript,
   StepName.collectOutput]

/-- Run a list of sub-steps in order against an outcome oracle giving each
sub-step's result were it run: a failing sub-step is recorded and ends the
run; a succeeding one is recorded and the rest continues.  Returns the
sub-steps that executed, in execution order, and the final error if any. -/
def runSteps (outcome : StepName → Option PyError) :
    List StepName → List StepName × Option PyError
  | [] => ([], none)
  | s :: rest =>
    match outcome s with
    | some e => ([s], some e)
    | none =>
      let r := runSteps outcome rest
      (s :: r.1, r.2)

/-- GenericStrategy.build at sub-step granularity (lines 69-73). -/
def GenericStrategy.build_run (outcome : StepName → Option PyError) :
    List StepName × Option PyError :=
  runSteps outcome buildOrder

/-- Builder.__init__ plus main's builder.build() (lines 32-36, 140-141)
for a selected strategy class: constructing the Builder constructs
strategy_class(module).  For the UnimplementedStrategy selection the
constructor itself already produces the failure, so builder.build() is
never reached; for a concrete strategy the constructor only stores
parameters (lines 40-47) and build() runs the four-step sequence.  The
Boolean records whether build() was invoked. -/
def Builder.construct_and_build (sc : StrategyClass) (platform : String)
    (distribution : Option String) (params : ModuleParams) (env : Env) :
    (List Effect × Option PyError) × Bool :=
  match sc with
  | StrategyClass.UnimplementedStrategy =>
      (((UnimplementedStrategy.init platform distribution).1,
        some (UnimplementedStrategy.init platform distribution).2), false)
  | StrategyClass.RedHatStrategy =>
      (GenericStrategy.build StrategyKind.redhat params env, true)
  | StrategyClass.DebianStrategy =>
      (GenericStrategy.build StrategyKind.debian params env, true)
  | StrategyClass.SuseStrategy =>
      (GenericStrategy.build StrategyKind.suse params env, true)

/-- main (lines 126-147): after builder.build() returns without failing,
the result dictionary carries changed = True and complex_args = the module
parameters, handed to module.exit_json; a failure anywhere surfaces as the
error. -/
def main_run (k : StrategyKind) (params : ModuleParams) (env : Env) :
    Except PyError BuildResult :=
  match (GenericStrategy.build k params env).2 with
  | some e => Except.error e
  | none => Except.ok { changed := true, complex_args := params }

/-- A path p lies strictly inside directory dir when dir plus a separator
is a prefix of p. -/
def isUnder (dir p : String) : Bool :=
  (dir ++ "/").data.isPrefixOf p.data

/-- Sample parameters used to instantiate theorems with hypotheses. -/
def sampleParams : ModuleParams :=
  { output_root_directory := "/out",
    irods_packages_root_directory := "/pkgs",
    plugin_name := "irods_resource_plugin_s3",
    target_os_list := ["Ubuntu_14"],
    git_repository := "https://example/irods_resource_plugin_s3.git",
    git_commitish := "4.1.8",
    debug_build := false }

/-- Sample host environment in which every external step succeeds. -/
def sampleEnv : Env :=
  { homeDir := "/home/u",
    ips := "ubuntu14",
    packagesListing := ["irods-dev-4.1.8.deb", "irods-runtime-4.1.8.deb"],
    rc := fun _ _ => 0,
    buildDirPreexists := false,
    copySrcExists := true,
    copySrcListing := ["pkg.deb"],
    outputDirExists := false }

/-- Environment for the output-collision case: the output directory already
exists. -/
def collisionEnv : Env :=
  { sampleEnv with outputDirExists := true }

/-- Environment in which the source build directory exists but is empty. -/
def emptySrcEnv : Env :=
  { sampleEnv with copySrcListing := [] }

/-- Listing in which two files carry the development marker and the
lexically smaller one comes second. -/
def unsortedListing : List String :=
  ["irods-dev-b.rpm", "irods-dev-a.rpm", "irods-runtime-a.rpm"]

/-- Parameters whose output root is the directory containing the hardcoded
build log. -/
def logRootParams : ModuleParams :=
  { sampleParams with output_root_directory := "/projects/irods/terrell" }

/-- The sub-step outcome oracle in which fetching the source fails. -/
def fetchFails : StepName → Option PyError :=
  fun t => if t = StepName.fetchSource then some PyError.indexError else none

/-! ## Helper lemmas -/

/-- The first element of a filtered list is the first element satisfying
the predicate. -/
theorem find?_eq_filter_head? {α : Type} (p : α → Bool) (l : List α) :
    l.find? p = (l.filter p).head? := by
  induction l with
  | nil => rfl
  | cons a t ih =>
    cases h : p a
    · rw [List.find?_cons_of_neg _ (by simp [h]), List.filter_cons_of_neg (by simp [h]), ih]
    · rw [List.find?_cons_of_pos _ h, List.filter_cons_of_pos h, List.head?_cons]

/-- String concatenation is associative. -/
theorem string_append_assoc (a b c : String) : (a ++ b) ++ c = a ++ (b ++ c) := by
  cases a; cases b; cases c
  exact congrArg String.mk (List.append_assoc _ _ _)

/-! ## Claims -/

/-- Claim C1 (amended): the strategy selector maps (Linux, Centos) to the
RedHat-family strategy, (Linux, Ubuntu) to the Debian-family strategy and
(Linux, "Opensuse ") — with the trailing space of line 123 — to the
Suse-family strategy, and every other pair, including (Linux, "Opensuse")
without the trailing space, to the unsupported-platform strategy; the match
is exact and case-sensitive with no fallback. -/
theorem strategy_selector_table :
    load_platform_subclass "Linux" (some "Centos") = StrategyClass.RedHatStrategy ∧
    load_platform_subclass "Linux" (some "Ubuntu") = StrategyClass.DebianStrategy ∧
    load_platform_subclass "Linux" (some "Opensuse ") = StrategyClass.SuseStrategy ∧
    ∀ p : String, ∀ d : Option String,
      (p, d) ≠ ("Linux", some "Centos") →
      (p, d) ≠ ("Linux", some "Ubuntu") →
      (p, d) ≠ ("Linux", some "Opensuse ") →
      load_platform_subclass p d = StrategyClass.UnimplementedStrategy := by
  refine ⟨by decide, by decide, by decide, ?_⟩
  intro p d h1 h2 h3
  unfold load_platform_subclass
  split_ifs with hc hu ho
  · exact absurd (by rw [hc.1, hc.2]; rfl) h1
  · exact absurd (by rw [hu.1, hu.2]; rfl) h2
  · exact absurd (by rw [ho.1, ho.2]; rfl) h3
  · rfl

/-- Witness for C1: the unrelated pair (Linux, Arch) selects the
unsupported-platform strategy. -/
theorem strategy_selector_table_witness :
    load_platform_subclass "Linux" (some "Arch") = StrategyClass.UnimplementedStrategy :=
  strategy_selector_table.2.2.2 "Linux" (some "Arch") (by decide) (by decide) (by decide)

/-- Counterexample for C1 as stated: the exact pair (Linux, "Opensuse")
without a trailing space does not select the Suse-family strategy, because
the source's key at line 123 is "Opensuse " with a trailing space. -/
theorem strategy_selector_opensuse_no_trailing_space :
    load_platform_subclass "Linux" (some "Opensuse") =
      StrategyClass.UnimplementedStrategy ∧
    StrategyClass.UnimplementedStrategy ≠ StrategyClass.SuseStrategy :=
  ⟨by decide, by decide⟩

/-- Claim C2 (code bug): on every unsupported platform the build call of
UnimplementedStrategy invokes no external process and fails — but not with
the platform-identifying message: lines 11 and 14 invoke the misspelled
attribute "unimplmented_error" while line 16 defines "unimplemented_error",
so the failure is an AttributeError and module.fail_json with the
descriptive message is never reached.  Evaluated at the detected pair
(Linux, Arch). -/
theorem unimplemented_build_attribute_error :
    UnimplementedStrategy.build "Linux" (some "Arch") =
      ([], PyError.attributeError "unimplmented_error") ∧
    ∀ p : String, ∀ d : Option String,
      (UnimplementedStrategy.build p d).1 = [] ∧
      (UnimplementedStrategy.build p d).2 ≠
        PyError.failJson (UnimplementedStrategy.unimplemented_error_msg p d) := by
  refine ⟨rfl, fun p d => ⟨rfl, ?_⟩⟩
  have h : UnimplementedStrategy.build p d =
      ([], PyError.attributeError "unimplmented_error") := rfl
  rw [h]
  simp

/-- Claim C10: when the selector resolves to the unsupported-platform
strategy, constructing the Builder already produces the failure (the
strategy constructor raises inside Builder.__init__), and build() of no
strategy is ever invoked. -/
theorem unsupported_builder_fails_at_construction (p : String) (d : Option String)
    (params : ModuleParams) (env : Env)
    (h : load_platform_subclass p d = StrategyClass.UnimplementedStrategy) :
    Builder.construct_and_build (load_platform_subclass p d) p d params env =
      (([], some (PyError.attributeError "unimplmented_error")), false) := by
  rw [h]; rfl

/-- Witness for C10 at the detected pair (Linux, Arch). -/
theorem unsupported_builder_fails_at_construction_witness :
    Builder.construct_and_build (load_platform_subclass "Linux" (some "Arch"))
        "Linux" (some "Arch") sampleParams sampleEnv =
      (([], some (PyError.attributeError "unimplmented_error")), false) :=
  unsupported_builder_fails_at_construction "Linux" (some "Arch") sampleParams
    sampleEnv (by decide)

/-- Claim C3 (amended): dependency installation installs exactly one file
containing the development marker "irods-dev-" and exactly one containing
the runtime marker "irods-runtime-", choosing for each the FIRST MATCH IN
DIRECTORY-LISTING ORDER — the order os.listdir returns, not the first
lexical match; given zero matches for either marker it fails (IndexError)
before any package-manager call for that package (the dev package, already
found, has been installed before the runtime lookup). -/
theorem install_dev_runtime_listing_order (pkgDir : String) (listing : List String) :
    (listing.find? (fun x => pyIn "irods-dev-" x) = none →
        install_dev_and_runtime_packages pkgDir listing =
          ([], some PyError.indexError)) ∧
    ∀ d : String, listing.find? (fun x => pyIn "irods-dev-" x) = some d →
      (listing.find? (fun x => pyIn "irods-runtime-" x) = none →
          install_dev_and_runtime_packages pkgDir listing =
            ([Effect.installOsPackagesFromFiles [os_path_join pkgDir d]],
             some PyError.indexError)) ∧
      ∀ r : String, listing.find? (fun x => pyIn "irods-runtime-" x) = some r →
          install_dev_and_runtime_packages pkgDir listing =
            ([Effect.installOsPackagesFromFiles [os_path_join pkgDir d],
              Effect.installOsPackagesFromFiles [os_path_join pkgDir r]], none) := by
  simp only [find?_eq_filter_head?]
  cases hd : listing.filter (fun x => pyIn "irods-dev-" x) with
  | nil =>
    refine ⟨fun _ => by simp [install_dev_and_runtime_packages, hd], fun d hd2 => ?_⟩
    simp at hd2
  | cons a t =>
    refine ⟨fun h => by simp at h, fun d hd2 => ?_⟩
    rw [List.head?_cons] at hd2
    injection hd2 with had
    subst had
    cases hr : listing.filter (fun x => pyIn "irods-runtime-" x) with
    | nil =>
      refine ⟨fun _ => by simp [install_dev_and_runtime_packages, hd, hr], fun r hr2 => ?_⟩
      simp at hr2
    | cons b u =>
      refine ⟨fun h => by simp at h, fun r hr2 => ?_⟩
      rw [List.head?_cons] at hr2
      injection hr2 with hbr
      subst hbr
      simp [install_dev_and_runtime_packages, hd, hr]

/-- Witness for C3: a listing with no development-marker file fails with
IndexError and installs nothing. -/
theorem install_dev_runtime_listing_order_witness :
    install_dev_and_runtime_packages "/pkgs" ["other.rpm"] =
      ([], some PyError.indexError) :=
  (install_dev_runtime_listing_order "/pkgs" ["other.rpm"]).1 (by rfl)

/-- Counterexample for C3 as stated: with listing order
[irods-dev-b.rpm, irods-dev-a.rpm, irods-runtime-a.rpm] the step installs
irods-dev-b.rpm, the first match in listing order, even though both files
carry the development marker and irods-dev-a.rpm is lexically smaller —
so the choice is not the first lexical match. -/
theorem install_dev_runtime_not_lexical :
    (install_dev_and_runtime_packages "/pkgs" unsortedListing).1 =
      [Effect.installOsPackagesFromFiles ["/pkgs/irods-dev-b.rpm"],
       Effect.installOsPackagesFromFiles ["/pkgs/irods-runtime-a.rpm"]] ∧
    pyIn "irods-dev-" "irods-dev-a.rpm" = true ∧
    pyIn "irods-dev-" "irods-dev-b.rpm" = true ∧
    ("irods-dev-a.rpm" : String).data < ("irods-dev-b.rpm" : String).data :=
  ⟨by decide, by decide, by decide, by decide⟩

/-- Claim C4 (amended): the collect-output step fails when the destination
output directory already exists — and then nothing is copied, so no file is
overwritten — and fails when the source build directory is missing; but
when the source build directory exists and is EMPTY and the destination
does not exist, the step succeeds, creating an empty destination (Python
2.7 shutil.copytree does not fail on an empty source). -/
theorem copy_build_output_behavior (params : ModuleParams) (env : Env) :
    (env.copySrcExists = true → env.outputDirExists = true →
        (GenericStrategy.copy_build_output params env).2 =
            some (PyError.osError (GenericStrategy.output_directory params env.ips)) ∧
        (GenericStrategy.copy_build_output params env).1 = []) ∧
    (env.copySrcExists = false →
        (GenericStrategy.copy_build_output params env).2.isSome = true ∧
        (GenericStrategy.copy_build_output params env).1 = []) ∧
    (env.copySrcExists = true → env.outputDirExists = false →
        (GenericStrategy.copy_build_output params env).2 = none) := by
  unfold GenericStrategy.copy_build_output copytree
  cases hs : env.copySrcExists <;> cases ho : env.outputDirExists <;> simp [hs, ho]

/-- Witness for C4: with an existing output directory the step fails with
an OSError naming the output directory and copies nothing. -/
theorem copy_build_output_behavior_witness :
    (GenericStrategy.copy_build_output sampleParams collisionEnv).2 =
      some (PyError.osError (GenericStrategy.output_directory sampleParams collisionEnv.ips)) ∧
    (GenericStrategy.copy_build_output sampleParams collisionEnv).1 = [] :=
  (copy_build_output_behavior sampleParams collisionEnv).1 rfl rfl

/-- Counterexample for C4 as stated: an existing but EMPTY source build
directory does not make the step fail — with a fresh destination it
succeeds. -/
theorem copy_build_output_empty_source_succeeds :
    emptySrcEnv.copySrcExists = true ∧
    emptySrcEnv.copySrcListing = [] ∧
    (GenericStrategy.copy_build_output sampleParams emptySrcEnv).2 = none :=
  ⟨rfl, rfl, rfl⟩

/-- Claim C6: only the Debian-family strategy has pre-install steps — it
first downloads the Globus repository-descriptor package and installs it
(registering the extra repository), and only afterwards installs the main
dependency list (followed by the dev/runtime package files); the RedHat-
and Suse-family strategies start directly with the main dependency list. -/
theorem debian_preinstall_repo_first (pkgDir : String) (listing : List String)
    (rc : String → Option String → Int) (h : rc wget_cmd none = 0) :
    (DebianStrategy.install_building_dependencies pkgDir listing rc).1 =
      Effect.runCommand wget_cmd none ::
        Effect.installOsPackagesFromFiles ["globus-toolkit-repo_latest_all.deb"] ::
        Effect.installOsPackages DebianStrategy.building_dependencies ::
        (install_dev_and_runtime_packages pkgDir listing).1 ∧
    (GenericStrategy.install_building_dependencies RedHatStrategy.building_dependencies
        pkgDir listing).1.head? =
      some (Effect.installOsPackages RedHatStrategy.building_dependencies) ∧
    (GenericStrategy.install_building_dependencies SuseStrategy.building_dependencies
        pkgDir listing).1.head? =
      some (Effect.installOsPackages SuseStrategy.building_dependencies) := by
  unfold DebianStrategy.install_building_dependencies
    GenericStrategy.install_building_dependencies
  simp [h]

/-- Witness for C6 with a successful wget. -/
theorem debian_preinstall_repo_first_witness :
    (DebianStrategy.install_building_dependencies "/pkgs" [] (fun _ _ => 0)).1 =
      Effect.runCommand wget_cmd none ::
        Effect.installOsPackagesFromFiles ["globus-toolkit-repo_latest_all.deb"] ::
        Effect.installOsPackages DebianStrategy.building_dependencies ::
        (install_dev_and_runtime_packages "/pkgs" []).1 :=
  (debian_preinstall_repo_first "/pkgs" [] (fun _ _ => 0) rfl).1

/-- Claim C5: for every strategy (all three concrete strategies inherit
GenericStrategy.build unchanged), build executes the sub-steps in program
order — install dependencies, fetch source, invoke build script, collect
output — as a prefix of that order with no sub-step repeated (no retry);
when no sub-step fails all four execute; when a sub-step fails it is the
last one executed and every other executed sub-step succeeded, so no later
sub-step ever runs after a failure. -/
theorem build_substeps_sequential (outcome : StepName → Option PyError) :
    (GenericStrategy.build_run outcome).1 <+: buildOrder ∧
    (GenericStrategy.build_run outcome).1.Nodup ∧
    ((GenericStrategy.build_run outcome).2 = none →
        (GenericStrategy.build_run outcome).1 = buildOrder) ∧
    ∀ e : PyError, (GenericStrategy.build_run outcome).2 = some e →
      ∃ s : StepName, (GenericStrategy.build_run outcome).1.getLast? = some s ∧
        outcome s = some e ∧
        ∀ t : StepName, t ∈ (GenericStrategy.build_run outcome).1 → t ≠ s →
          outcome t = none := by
  cases h1 : outcome StepName.installDeps with
  | some e1 =>
    have heq : GenericStrategy.build_run outcome = ([StepName.installDeps], some e1) := by
      simp [GenericStrategy.build_run, buildOrder, runSteps, h1]
    rw [heq]
    refine ⟨?_, ?_, by simp [buildOrder], ?_⟩
    · show [StepName.installDeps] <+: buildOrder
      decide
    · show List.Nodup [StepName.installDeps]
      decide
    intro e he
    injection he with he'
    subst he'
    refine ⟨StepName.installDeps, rfl, h1, ?_⟩
    intro t ht hne
    simp at ht
    exact absurd ht hne
  | none =>
    cases h2 : outcome StepName.fetchSource with
    | some e2 =>
      have heq : GenericStrategy.build_run outcome =
          ([StepName.installDeps, StepName.fetchSource], some e2) := by
        simp [GenericStrategy.build_run, buildOrder, runSteps, h1, h2]
      rw [heq]
      refine ⟨?_, ?_, by simp [buildOrder], ?_⟩
      · show [StepName.installDeps, StepName.fetchSource] <+: buildOrder
        decide
      · show List.Nodup [StepName.installDeps, StepName.fetchSource]
        decide
      intro e he
      injection he with he'
      subst he'
      refine ⟨StepName.fetchSource, rfl, h2, ?_⟩
      intro t ht hne
      rcases (by simpa using ht : t = StepName.installDeps ∨ t = StepName.fetchSource) with
        rfl | rfl
      · exact h1
      · exact absurd rfl hne
    | none =>
      cases h3 : outcome StepName.buildScript with
      | some e3 =>
        have heq : GenericStrategy.build_run outcome =
            ([StepName.installDeps, StepName.fetchSource, StepName.buildScript],
             some e3) := by
          simp [GenericStrategy.build_run, buildOrder, runSteps, h1, h2, h3]
        rw [heq]
        refine ⟨?_, ?_, by simp [buildOrder], ?_⟩
        · show [StepName.installDeps, StepName.fetchSource, StepName.buildScript] <+: buildOrder
          decide
        · show List.Nodup [StepName.installDeps, StepName.fetchSource, StepName.buildScript]
          decide
        intro e he
        injection he with he'
        subst he'
        refine ⟨StepName.buildScript, rfl, h3, ?_⟩
        intro t ht hne
        rcases (by simpa using ht : t = StepName.installDeps ∨ t = StepName.fetchSource ∨
            t = StepName.buildScript) with rfl | rfl | rfl
        · exact h1
        · exact h2
        · exact absurd rfl hne
      | none =>
        cases h4 : outcome StepName.collectOutput with
        | some e4 =>
          have heq : GenericStrategy.build_run outcome = (buildOrder, some e4) := by
            simp [GenericStrategy.build_run, buildOrder, runSteps, h1, h2, h3, h4]
          rw [heq]
          refine ⟨?_, ?_, by simp, ?_⟩
          · show buildOrder <+: buildOrder
            decide
          · show List.Nodup buildOrder
            decide
          intro e he
          injection he with he'
          subst he'
          refine ⟨StepName.collectOutput, rfl, h4, ?_⟩
          intro t ht hne
          rcases (by simpa [buildOrder] using ht : t = StepName.installDeps ∨
              t = StepName.fetchSource ∨ t = StepName.buildScript ∨
              t = StepName.collectOutput) with rfl | rfl | rfl | rfl
          · exact h1
          · exact h2
          · exact h3
          · exact absurd rfl hne
        | none =>
          have heq : GenericStrategy.build_run outcome = (buildOrder, none) := by
            simp [GenericStrategy.build_run, buildOrder, runSteps, h1, h2, h3, h4]
          rw [heq]
          refine ⟨by decide, by decide, fun _ => rfl, ?_⟩
          intro e he
          simp at he

/-- Witness for C5: with an oracle failing the fetch-source sub-step, the
failing sub-step is the last executed and the only other executed sub-step
(install dependencies) succeeded. -/
theorem build_substeps_sequential_witness :
    ∃ s : StepName, (GenericStrategy.build_run fetchFails).1.getLast? = some s ∧
      fetchFails s = some PyError.indexError ∧
      ∀ t : StepName, t ∈ (GenericStrategy.build_run fetchFails).1 → t ≠ s →
        fetchFails t = none :=
  (build_substeps_sequential fetchFails).2.2.2 PyError.indexError (by rfl)

/-- Claim C7: whenever the selected strategy's build succeeds, main returns
the structured result with changed = true and an echo of all the input
parameters. -/
theorem main_success_result_echoes_params (k : StrategyKind)
    (params : ModuleParams) (env : Env)
    (h : (GenericStrategy.build k params env).2 = none) :
    main_run k params env =
      Except.ok { changed := true, complex_args := params } := by
  unfold main_run
  rw [h]

/-- Witness for C7: a RedHat-family run in which every external step
succeeds. -/
theorem main_success_result_echoes_params_witness :
    main_run StrategyKind.redhat sampleParams sampleEnv =
      Except.ok { changed := true, complex_args := sampleParams } :=
  main_success_result_echoes_params StrategyKind.redhat sampleParams sampleEnv rfl

/-- Claim C8: the fetch-source step clones the requested repository
recursively into the per-plugin directory under the invoking user's home
(home/plugin_name), then checks out the requested commitish inside it; a
non-zero status from the clone fails the run with the checkout never
invoked, a non-zero status from the checkout fails the run, and — git
returning non-zero when its target directory exists and is non-empty (the
hypothesis encodes this documented behavior of the external git process) —
an existing non-empty clone target fails the run. -/
theorem prepare_git_clone_then_checkout (params : ModuleParams) (env : Env)
    (targetNonEmpty : Bool)
    (hgit : targetNonEmpty = true →
      env.rc (git_clone_cmd params.git_repository
        (GenericStrategy.local_plugin_dir env.homeDir params.plugin_name)) none ≠ 0) :
    GenericStrategy.local_plugin_dir env.homeDir params.plugin_name =
      env.homeDir ++ "/" ++ params.plugin_name ∧
    (env.rc (git_clone_cmd params.git_repository
        (GenericStrategy.local_plugin_dir env.homeDir params.plugin_name)) none = 0 →
      env.rc (git_checkout_cmd params.git_commitish)
        (some (GenericStrategy.local_plugin_dir env.homeDir params.plugin_name)) = 0 →
      GenericStrategy.prepare_git_repository params env =
        ([Effect.runCommand (git_clone_cmd params.git_repository
            (GenericStrategy.local_plugin_dir env.homeDir params.plugin_name)) none,
          Effect.runCommand (git_checkout_cmd params.git_commitish)
            (some (GenericStrategy.local_plugin_dir env.homeDir params.plugin_name))],
         none)) ∧
    (env.rc (git_clone_cmd params.git_repository
        (GenericStrategy.local_plugin_dir env.homeDir params.plugin_name)) none ≠ 0 →
      GenericStrategy.prepare_git_repository params env =
        ([Effect.runCommand (git_clone_cmd params.git_repository
            (GenericStrategy.local_plugin_dir env.homeDir params.plugin_name)) none],
         some (PyError.commandFailed (git_clone_cmd params.git_repository
            (GenericStrategy.local_plugin_dir env.homeDir params.plugin_name))))) ∧
    (env.rc (git_checkout_cmd params.git_commitish)
        (some (GenericStrategy.local_plugin_dir env.homeDir params.plugin_name)) ≠ 0 →
      (GenericStrategy.prepare_git_repository params env).2.isSome = true) ∧
    (targetNonEmpty = true →
      (GenericStrategy.prepare_git_repository params env).2.isSome = true) := by
  refine ⟨rfl, ?_, ?_, ?_, ?_⟩ <;> unfold GenericStrategy.prepare_git_repository
  · intro hc hco
    simp [hc, hco]
  · intro hc
    simp [hc]
  · intro hco
    by_cases hc : env.rc (git_clone_cmd params.git_repository
        (GenericStrategy.local_plugin_dir env.homeDir params.plugin_name)) none = 0
    · simp [hc, hco]
    · simp [hc]
  · intro hne
    have hc := hgit hne
    simp [hc]

/-- Witness for C8: with both git commands succeeding, exactly the
recursive clone into home/plugin_name and then the checkout run. -/
theorem prepare_git_clone_then_checkout_witness :
    GenericStrategy.prepare_git_repository sampleParams sampleEnv =
      ([Effect.runCommand (git_clone_cmd sampleParams.git_repository
          (GenericStrategy.local_plugin_dir sampleEnv.homeDir sampleParams.plugin_name)) none,
        Effect.runCommand (git_checkout_cmd sampleParams.git_commitish)
          (some (GenericStrategy.local_plugin_dir sampleEnv.homeDir
            sampleParams.plugin_name))],
       none) :=
  (prepare_git_clone_then_checkout sampleParams sampleEnv false
    (fun h => nomatch h)).2.1 rfl rfl

/-- Claim C9 (amended): the build-script step redirects the script's
combined output to the fixed absolute path
/projects/irods/terrell/build-(platform tag).log, which depends only on the
detected platform string and on no BuildRequest field; the step performs at
most the build-directory creation and that one shell command.  The claim's
further assertion that this location lies outside the configured output
root (and outside the clone) does not hold for every run — see the
counterexample. -/
theorem build_script_log_path_fixed (params : ModuleParams) (env : Env) :
    build_script_cmd env.ips =
      "sudo ./packaging/build.sh -r > \"" ++ build_log_path env.ips ++ "\" 2>&1" ∧
    (build_log_path env.ips).data.head? = some '/' ∧
    ((GenericStrategy.build_plugin_package params env).1 = [] ∨
      (GenericStrategy.build_plugin_package params env).1 =
        [Effect.makedirs (os_path_join
            (GenericStrategy.local_plugin_dir env.homeDir params.plugin_name) "build"),
         Effect.runShellCommand (build_script_cmd env.ips)
           (some (GenericStrategy.local_plugin_dir env.homeDir params.plugin_name))]) := by
  refine ⟨?_, rfl, ?_⟩
  · have hab : (("sudo ./packaging/build.sh -r > \"" : String) ++ "/projects/irods/terrell/build-") =
        "sudo ./packaging/build.sh -r > \"/projects/irods/terrell/build-" := rfl
    have hc : ((".log" : String) ++ "\" 2>&1") = ".log\" 2>&1" := rfl
    unfold build_script_cmd build_log_path
    simp only [string_append_assoc]
    rw [hc]
    conv_rhs => rw [← string_append_assoc]
    rw [hab]
  · unfold GenericStrategy.build_plugin_package
    by_cases hp : env.buildDirPreexists = true
    · simp [hp]
    · by_cases hc : env.rc (build_script_cmd env.ips)
          (some (GenericStrategy.local_plugin_dir env.homeDir params.plugin_name)) = 0
      · simp [hp, hc]
      · simp [hp, hc]

/-- Counterexample for C9 as stated: in a run whose output_root_directory
is /projects/irods/terrell, the fixed log path lies INSIDE the configured
output root, not outside it. -/
theorem build_script_log_inside_output_root :
    logRootParams.output_root_directory = "/projects/irods/terrell" ∧
    isUnder logRootParams.output_root_directory (build_log_path "centos6") = true ∧
    build_script_cmd "centos6" =
      "sudo ./packaging/build.sh -r > \"/projects/irods/terrell/build-centos6.log\" 2>&1" :=
  ⟨rfl, by decide, rfl⟩
